import Mathlib

/-!
# Scenario repository: the `createScenario` and `findScenarios` handlers

A shallow embedding of the two route handlers of `pocketbase/main.go` and of
`saveUploadedFile`.  The handlers are translated statement by statement.
Everything the handlers call outside the repository (the PocketBase
application, the multipart request, the TOML decoder, `strconv.ParseFloat`,
the uuid generator, the operating system) is a field of `Env` or of
`Request`, so that every theorem quantifies over all behaviours of these
collaborators.  The record store and the file store are an explicit `World`
that the handler transforms.
-/

namespace Scenarios

/-! ## Values -/

/-- File content as a sequence of bytes. -/
abbrev Bytes := List Nat

/-- A Go `error` value produced outside the handlers (returned by a collaborator). -/
structure GoError where
  msg : String
  deriving DecidableEq, Repr

deriving instance DecidableEq for Except

/-- A Go `float64`, given by its 64 bits (IEEE 754 binary64). -/
structure Float64 where
  bits : Nat
  deriving DecidableEq, Repr

namespace Float64

/-- Bit pattern with an all-ones exponent and a non-zero fraction. -/
def isNaN (x : Float64) : Bool :=
  (x.bits / 2 ^ 52) % 2 ^ 11 == 2047 && x.bits % 2 ^ 52 != 0

/-- Positive or negative zero. -/
def isZero (x : Float64) : Bool :=
  x.bits % 2 ^ 63 == 0

/-- Go's `==` on `float64`: a NaN equals nothing, the two zeros are equal,
every other value equals only itself. -/
def eq (x y : Float64) : Bool :=
  !x.isNaN && !y.isNaN && (x.bits % 2 ^ 64 == y.bits % 2 ^ 64 || (x.isZero && y.isZero))

/-- The zero value of `float64`. -/
def zero : Float64 := ⟨0⟩

end Float64

/-- A Go `any` (`interface{}`) as found in `RequestInfo.Body`, in query
parameters and in JSON maps.  `nil` is also what a map lookup of an absent key
gives. -/
inductive GoAny where
  | nil
  | str (s : String)
  | float (x : Float64)
  | bool (b : Bool)
  | other (description : String)
  deriving DecidableEq, Repr

namespace GoAny

/-- Go's `s == v` for a `string` `s` and an interface value `v`: true exactly
when the dynamic type of `v` is `string` and the strings are equal. -/
def eqString (v : GoAny) (s : String) : Bool :=
  match v with
  | .str t => t == s
  | _ => false

/-- The type assertion `v.(string)`; `none` stands for the run-time panic. -/
def assertString (v : GoAny) : Option String :=
  match v with
  | .str t => some t
  | _ => none

end GoAny

/-- A Go `map[string]any` as an association list; the first binding of a key counts. -/
abbrev GoMap := List (String × GoAny)

/-- The map index expression `m[key]`: the zero value `nil` when the key is absent. -/
def GoMap.get (m : GoMap) (key : String) : GoAny :=
  match m.find? (fun kv => kv.1 == key) with
  | some kv => kv.2
  | none => .nil

/-! ## Data model -/

/-- A record of the `scenarioMetadata` collection (fields added at bootstrap:
`name`, `author`, `time`, `uuid`, `created`, `createdBy`), with the internal id
every PocketBase record has. -/
structure Record where
  id : String
  name : String
  author : String
  time : Float64
  uuid : String
  created : String
  createdBy : String
  deriving DecidableEq, Repr

/-- The auth record that `FindAuthRecordByToken` resolves; only `Id` is used. -/
structure AuthRecord where
  Id : String
  deriving DecidableEq, Repr

/-- A collection handle returned by `FindCollectionByNameOrId`. -/
structure Collection where
  name : String
  deriving DecidableEq, Repr

/-- The struct `InfoToml` declared in the handler. -/
structure InfoToml where
  Name : String
  Author : String
  Time : Float64
  deriving DecidableEq, Repr

/-- The value of `var parsedInfoData InfoToml`: every field has Go's zero value. -/
def InfoToml.zeroValue : InfoToml := ⟨"", "", Float64.zero⟩

/-- A value of a TOML document after parsing. -/
inductive TomlValue where
  | str (s : String)
  | float (x : Float64)
  | integer (n : Int)
  | bool (b : Bool)
  | other (description : String)
  deriving DecidableEq, Repr

/-- A parsed TOML document: the top-level keys with their values, in the order
the decoder visits them. -/
abbrev TomlTable := List (String × TomlValue)

/-- A `multipart.File`: the uploaded bytes and a read position.  `readError`
is the error every read of this file gives, if any. -/
structure UploadedFile where
  data : Bytes
  pos : Nat
  readError : Option GoError
  deriving DecidableEq, Repr

/-- An uploaded form file as it arrives with the request. -/
structure Upload where
  content : Bytes
  readError : Option GoError
  deriving DecidableEq, Repr

/-- What a handler reads of the incoming request. -/
structure Request where
  headers : List (String × String)
  files : List (String × Upload)
  requestInfo : Except GoError GoMap

/-- The record store and the file store. -/
structure World where
  records : List Record
  dirs : List String
  files : List (String × Bytes)
  deriving DecidableEq, Repr

/-- The arguments of one `FindRecordsByFilter` call. -/
structure FilterCall where
  collection : String
  filter : String
  sort : String
  limit : Int
  offset : Int
  params : List GoMap
  deriving DecidableEq, Repr

/-- The collaborators of the handlers. -/
structure Env where
  findAuthRecordByToken : String → Except GoError AuthRecord
  findCollectionByNameOrId : String → Except GoError Collection
  tomlParse : Bytes → Except GoError TomlTable
  tomlIntToFloat : Int → Except GoError Float64
  parseFloat : String → Except GoError Float64
  nowDateTime : String
  newUUID : String
  save : List Record → Record → Except GoError Unit
  mkdirAll : String → Except GoError Unit
  osCreate : String → Except GoError Unit
  writeFault : String → Option (Nat × GoError)
  findRecordsByFilter : FilterCall → Except GoError (List Record)

/-- The error value a handler returns: one it builds with
`echo.NewHTTPError(code, message)`, or a collaborator's error handed on
unchanged by `return err`. -/
inductive HandlerError where
  | http (code : Nat) (message : String)
  | raw (e : GoError)
  deriving DecidableEq, Repr

/-- How a handler invocation ends: with the call `e.JSON(status, body)` (the
writing of the response itself is not part of the model), with a returned
error, or with a run-time panic. -/
inductive Outcome (α : Type) where
  | json (status : Nat) (body : α)
  | fail (e : HandlerError)
  | panic (reason : String)
  deriving DecidableEq, Repr

/-! ## Request and file primitives -/

/-- The call `e.Request.Header.Get(key)`: the empty string when the header is absent. -/
def Request.headerGet (req : Request) (key : String) : String :=
  match req.headers.find? (fun kv => kv.1 == key) with
  | some kv => kv.2
  | none => ""

/-- The call `e.Request.FormFile(key)`: a file opened at position 0, `none` for an error. -/
def Request.formFile (req : Request) (key : String) : Option UploadedFile :=
  match req.files.find? (fun kv => kv.1 == key) with
  | some kv => some ⟨kv.2.content, 0, kv.2.readError⟩
  | none => none

/-- The function `io.ReadAll`: everything from the read position to the end; the
position is left at the end. -/
def ioReadAll (f : UploadedFile) : Except GoError Bytes × UploadedFile :=
  match f.readError with
  | some e => (.error e, f)
  | none => (.ok (f.data.drop f.pos), { f with pos := f.data.length })

/-- Path lookup in the file store. -/
def World.readFile (w : World) (path : String) : Option Bytes :=
  match w.files.find? (fun kv => kv.1 == path) with
  | some kv => some kv.2
  | none => none

/-- Replace the content stored at a path. -/
def World.writeFile (w : World) (path : String) (content : Bytes) : World :=
  { w with files := (path, content) :: w.files.filter (fun kv => kv.1 != path) }

/-- The call `filepath.Join(a, b)` on clean path elements. -/
def pathJoin (a b : String) : String := a ++ "/" ++ b

/-- Helper of the source: `os.Create(dstPath)` then `io.Copy(out, file)`, which
copies from the current read position of `file` to its end. -/
def saveUploadedFile (env : Env) (file : UploadedFile) (dstPath : String) (w : World) :
    World × Option GoError :=
  match env.osCreate dstPath with
  | .error e => (w, some e)
  | .ok () =>
    let w1 := w.writeFile dstPath []
    match file.readError with
    | some e => (w1, some e)
    | none =>
      let rest := file.data.drop file.pos
      match env.writeFault dstPath with
      | some (n, e) => (w1.writeFile dstPath (rest.take n), some e)
      | none => (w1.writeFile dstPath rest, none)

/-! ## The TOML decoder

`toml.Decode` belongs to the library `github.com/BurntSushi/toml`.  Its text
parser is the collaborator `Env.tomlParse`.  Its second half, which stores the
parsed table into the Go struct passed by pointer, is modelled after the
library's `unifyStruct`: every key of the table is looked up among the struct's
field tags (an exact match, otherwise a match up to letter case); a key with no
field is skipped; a value of an incompatible type is an error; a field whose
key does not occur is not touched. -/

/-- The TOML keys of the fields of `InfoToml`, from its struct tags. -/
def infoTomlFields : List String := ["name", "author", "time"]

/-- The call `strings.EqualFold` on keys, by ASCII letter case. -/
def equalFold (a b : String) : Bool :=
  a.toList.map Char.toLower == b.toList.map Char.toLower

/-- The field a TOML key is stored into: the field whose tag equals the key,
otherwise the first field whose tag equals it up to letter case. -/
def findField (key : String) : Option String :=
  match infoTomlFields.find? (fun f => f == key) with
  | some f => some f
  | none => infoTomlFields.find? (fun f => equalFold f key)

/-- Store a TOML value into a `string` field. -/
def unifyString (v : TomlValue) : Except GoError String :=
  match v with
  | .str s => .ok s
  | _ => .error ⟨"toml: incompatible types: destination has type string"⟩

/-- Store a TOML value into a `float64` field; what happens to a TOML integer
is left to the library (`Env.tomlIntToFloat`). -/
def unifyFloat64 (env : Env) (v : TomlValue) : Except GoError Float64 :=
  match v with
  | .float x => .ok x
  | .integer n => env.tomlIntToFloat n
  | _ => .error ⟨"toml: incompatible types: destination has type float"⟩

/-- Store one key of the table into the struct. -/
def unifyKey (env : Env) (key : String) (v : TomlValue) (dst : InfoToml) :
    Except GoError InfoToml :=
  match findField key with
  | none => .ok dst
  | some f =>
    if f == "name" then
      match unifyString v with
      | .error e => .error e
      | .ok s => .ok { dst with Name := s }
    else if f == "author" then
      match unifyString v with
      | .error e => .error e
      | .ok s => .ok { dst with Author := s }
    else
      match unifyFloat64 env v with
      | .error e => .error e
      | .ok x => .ok { dst with Time := x }

/-- Store every key of the table into the struct, stopping at the first error. -/
def unifyStruct (env : Env) (table : TomlTable) (dst : InfoToml) : Except GoError InfoToml :=
  match table with
  | [] => .ok dst
  | (key, v) :: rest =>
    match unifyKey env key v dst with
    | .error e => .error e
    | .ok dst1 => unifyStruct env rest dst1

/-- The call `toml.Decode(string(data), &dst)`. -/
def tomlDecode (env : Env) (data : Bytes) (dst : InfoToml) : Except GoError InfoToml :=
  match env.tomlParse data with
  | .error e => .error e
  | .ok table => unifyStruct env table dst

/-! ## The handlers -/

/-- The JSON object the `createScenario` handler answers with. -/
def createdBody (scenarioID : String) : GoMap :=
  [("id", .str scenarioID),
   ("info_file", .str ("/scenarios/" ++ scenarioID ++ "/info.toml")),
   ("script_file", .str ("/scenarios/" ++ scenarioID ++ "/script.lua"))]

/-- The handler of `POST /api/createScenario`.  The `multipart.File` of
`info.toml` is one object: `infoFile` is the handle as `io.ReadAll` left it, and
it is this handle that `saveUploadedFile` copies later. -/
def createScenario (env : Env) (req : Request) (w : World) : World × Outcome GoMap :=
  let authHeader := req.headerGet "Authorization"
  if authHeader == "" then
    (w, .fail (.http 401 "Missing Authorization header"))
  else
  match env.findAuthRecordByToken authHeader with
  | .error e => (w, .fail (.raw e))
  | .ok authRecord =>
  match env.findCollectionByNameOrId "scenarioMetadata" with
  | .error e => (w, .fail (.raw e))
  | .ok _collection =>
  match req.formFile "info.toml" with
  | none => (w, .fail (.http 400 "Missing info.toml"))
  | some infoFile0 =>
  match req.formFile "script.lua" with
  | none => (w, .fail (.http 400 "Missing script.lua"))
  | some scriptFile =>
  match req.requestInfo with
  | .error e => (w, .fail (.raw e))
  | .ok body =>
  match ioReadAll infoFile0 with
  | (.error _, _) => (w, .fail (.http 500 "Failed to read info.toml"))
  | (.ok infoData, infoFile) =>
  match tomlDecode env infoData InfoToml.zeroValue with
  | .error _ => (w, .fail (.http 500 "Failed to parse info.toml"))
  | .ok parsedInfoData =>
  match (body.get "time").assertString with
  | none => (w, .panic "interface conversion: interface \x7b\x7d is not string")
  | some timeText =>
  match env.parseFloat timeText with
  | .error e => (w, .fail (.raw e))
  | .ok time =>
  if !(body.get "name").eqString parsedInfoData.Name
      || !(body.get "author").eqString parsedInfoData.Author
      || !(Float64.eq parsedInfoData.Time time) then
    (w, .fail (.http 500 "Supplied metadata and metadata in info.toml do not match"))
  else
  match (body.get "name").assertString with
  | none => (w, .panic "interface conversion: interface \x7b\x7d is not string")
  | some name =>
  match (body.get "author").assertString with
  | none => (w, .panic "interface conversion: interface \x7b\x7d is not string")
  | some author =>
  let scenarioID := env.newUUID
  let record : Record :=
    { id := "", name := name, author := author, time := time,
      uuid := scenarioID, created := env.nowDateTime, createdBy := authRecord.Id }
  match env.save w.records record with
  | .error e => (w, .fail (.raw e))
  | .ok () =>
  let w1 : World := { w with records := w.records ++ [record] }
  let destDir := pathJoin (pathJoin "pb_public" "scenarios") scenarioID
  match env.mkdirAll destDir with
  | .error _ => (w1, .fail (.http 500 "Failed to create directory"))
  | .ok () =>
  let w2 : World := { w1 with dirs := destDir :: w1.dirs }
  let infoDest := pathJoin destDir "info.toml"
  match saveUploadedFile env infoFile infoDest w2 with
  | (w3, some _) => (w3, .fail (.http 500 "Failed to save info.toml"))
  | (w3, none) =>
  let scriptDest := pathJoin destDir "script.lua"
  match saveUploadedFile env scriptFile scriptDest w3 with
  | (w4, some _) => (w4, .fail (.http 500 "Failed to save script.lua"))
  | (w4, none) => (w4, .json 200 (createdBody scenarioID))

/-- The projection of one record in the `findScenarios` response. -/
def summary (r : Record) : GoMap :=
  [("name", .str r.name), ("author", .str r.author), ("time", .float r.time),
   ("uuid", .str r.uuid)]

/-- The `FindRecordsByFilter` call the `findScenarios` handler issues for a request body. -/
def findScenariosCall (body : GoMap) : FilterCall :=
  let query := body.get "query"
  if query.eqString "" then
    { collection := "scenarioMetadata", filter := "", sort := "-created",
      limit := 50, offset := 0, params := [] }
  else
    { collection := "scenarioMetadata", filter := "name ~ \x7b:query\x7d", sort := "-created",
      limit := 50, offset := 0, params := [[("query", query)]] }

/-- The handler of `POST /api/findScenarios`, with the log of the store calls it issued. -/
def findScenarios (env : Env) (req : Request) : List FilterCall × Outcome (List GoMap) :=
  match req.requestInfo with
  | .error e => ([], .fail (.raw e))
  | .ok body =>
  let call := findScenariosCall body
  match env.findRecordsByFilter call with
  | .error e => ([call], .fail (.raw e))
  | .ok records => ([call], .json 200 (records.map summary))

/-! ## A concrete environment

One fully specified set of collaborators and a few requests, on which the
handlers can be evaluated. -/

/-- ASCII text as bytes. -/
def asciiBytes (s : String) : Bytes := s.toList.map Char.toNat

/-- An `info.toml` with the three keys. -/
def alphaToml : Bytes := asciiBytes "name = \"Alpha\"\nauthor = \"A\"\ntime = 1.5\n"

/-- An `info.toml` without the key `time`. -/
def noTimeToml : Bytes := asciiBytes "name = \"Alpha\"\nauthor = \"A\"\n"

/-- An `info.toml` whose `time` is a string. -/
def textTimeToml : Bytes := asciiBytes "name = \"Alpha\"\nauthor = \"A\"\ntime = \"soon\"\n"

/-- A `script.lua`. -/
def alphaScript : Bytes := asciiBytes "print(1)\n"

/-- The float64 1.5. -/
def oneAndHalf : Float64 := ⟨0x3FF8000000000000⟩

/-- The float64 2. -/
def two : Float64 := ⟨0x4000000000000000⟩

/-- The parsed form of the sample documents; any other text is rejected. -/
def sampleTomlParse (data : Bytes) : Except GoError TomlTable :=
  if data == alphaToml then
    .ok [("name", .str "Alpha"), ("author", .str "A"), ("time", .float oneAndHalf)]
  else if data == noTimeToml then
    .ok [("name", .str "Alpha"), ("author", .str "A")]
  else if data == textTimeToml then
    .ok [("name", .str "Alpha"), ("author", .str "A"), ("time", .str "soon")]
  else if data == [] then
    .ok []
  else
    .error ⟨"toml: expected key"⟩

/-- The value of `strconv.ParseFloat` on a few decimal texts; any other text is rejected. -/
def sampleParseFloat (text : String) : Except GoError Float64 :=
  if text == "1.5" then .ok oneAndHalf
  else if text == "2" then .ok two
  else if text == "0" then .ok Float64.zero
  else .error ⟨"strconv.ParseFloat: invalid syntax"⟩

/-- A record store that enforces the unique index `idx_scenarios_unique_name` on `name`. -/
def uniqueNameSave (records : List Record) (r : Record) : Except GoError Unit :=
  if records.any (fun r0 => r0.name == r.name) then
    .error ⟨"name: Value must be unique."⟩
  else
    .ok ()

/-- A record already in the store. -/
def storedAlpha : Record :=
  { id := "r1", name := "Alpha", author := "A", time := oneAndHalf,
    uuid := "11111111-1111-4111-8111-111111111111", created := "2025-01-01 00:00:00.000Z",
    createdBy := "u1" }

/-- A second record in the store. -/
def storedBeta : Record :=
  { id := "r2", name := "Beta", author := "B", time := two,
    uuid := "22222222-2222-4222-8222-222222222222", created := "2025-01-02 00:00:00.000Z",
    createdBy := "u2" }

/-- The sample collaborators: one valid token, a working file system, a store
with the unique name index whose listing returns its two records. -/
def sampleEnv : Env :=
  { findAuthRecordByToken := fun token =>
      if token == "token-u1" then .ok ⟨"u1"⟩ else .error ⟨"token is invalid"⟩
    findCollectionByNameOrId := fun _ => .ok ⟨"scenarioMetadata"⟩
    tomlParse := sampleTomlParse
    tomlIntToFloat := fun _ => .error ⟨"toml: incompatible types"⟩
    parseFloat := sampleParseFloat
    nowDateTime := "2025-01-03 00:00:00.000Z"
    newUUID := "33333333-3333-4333-8333-333333333333"
    save := uniqueNameSave
    mkdirAll := fun _ => .ok ()
    osCreate := fun _ => .ok ()
    writeFault := fun _ => none
    findRecordsByFilter := fun _ => .ok [storedBeta, storedAlpha] }

/-- A submission with the given token, files and form fields. -/
def submission (token : String) (files : List (String × Upload)) (form : GoMap) : Request :=
  { headers := if token == "" then [] else [("Authorization", token)]
    files := files
    requestInfo := .ok form }

/-- The form fields that agree with `alphaToml`. -/
def alphaForm : GoMap := [("name", .str "Alpha"), ("author", .str "A"), ("time", .str "1.5")]

/-- The two uploads of the complete submission. -/
def alphaFiles : List (String × Upload) :=
  [("info.toml", ⟨alphaToml, none⟩), ("script.lua", ⟨alphaScript, none⟩)]

/-- A complete, consistent submission. -/
def alphaRequest : Request :=
  submission "token-u1" alphaFiles alphaForm

/-- The empty store. -/
def emptyWorld : World := ⟨[], [], []⟩

/-- The store holding the two sample records. -/
def sampleWorld : World := ⟨[storedAlpha, storedBeta], [], []⟩

/-- A submission whose form says `time = 2` while `info.toml` says `time = 1.5`. -/
def mismatchRequest : Request :=
  submission "token-u1" alphaFiles [("name", .str "Alpha"), ("author", .str "A"), ("time", .str "2")]

/-- A submission without the file `info.toml`. -/
def noInfoRequest : Request :=
  submission "token-u1" [("script.lua", ⟨alphaScript, none⟩)] alphaForm

/-- A submission whose `script.lua` is present with zero bytes. -/
def emptyScriptRequest : Request :=
  submission "token-u1" [("info.toml", ⟨alphaToml, none⟩), ("script.lua", ⟨[], none⟩)] alphaForm

/-- A complete submission that carries a token the identity collaborator does not resolve. -/
def staleTokenRequest : Request :=
  submission "token-old" alphaFiles alphaForm

/-- A complete submission whose form has no field `time`. -/
def noTimeFieldRequest : Request :=
  submission "token-u1" alphaFiles [("name", .str "Alpha"), ("author", .str "A")]

/-- A search request whose body has no field `query`. -/
def noQueryRequest : Request :=
  { headers := [], files := [], requestInfo := .ok [] }

/-- A search request with the given query text. -/
def queryRequest (query : String) : Request :=
  { headers := [], files := [], requestInfo := .ok [("query", .str query)] }

/-- Whether the outcome is an error the handler built with the given HTTP status. -/
def Outcome.isHttpError {α : Type} (code : Nat) (o : Outcome α) : Bool :=
  match o with
  | .fail (.http c _) => c == code
  | _ => false

/-- The bundle directory of a scenario id. -/
def bundleDir (scenarioID : String) : String :=
  pathJoin (pathJoin "pb_public" "scenarios") scenarioID

/-- Reading a freshly opened upload gives all its bytes and leaves the read
position at the end. -/
theorem ioReadAll_fresh (data : Bytes) :
    ioReadAll ⟨data, 0, none⟩ = (.ok data, ⟨data, data.length, none⟩) := by
  simp [ioReadAll]

/-- A string equals an interface value exactly when the value is that string. -/
theorem eqString_eq_true_iff (v : GoAny) (s : String) :
    v.eqString s = true ↔ v = .str s := by
  cases v <;> simp [GoAny.eqString]

/-- Two joined paths are equal only when their last elements are. -/
theorem pathJoin_right_inj (d a b : String) (h : pathJoin d a = pathJoin d b) : a = b := by
  unfold pathJoin at h
  have h2 := congrArg String.data h
  simp only [String.data_append, List.append_assoc, List.append_cancel_left_eq] at h2
  exact String.ext h2

/-- Removing the bindings of one path does not change what another path is bound to. -/
theorem find_filter_ne (files : List (String × Bytes)) (p q : String) (hq : q ≠ p) :
    (files.filter (fun kv => kv.1 != p)).find? (fun kv => kv.1 == q)
      = files.find? (fun kv => kv.1 == q) := by
  induction files with
  | nil => rfl
  | cons head rest ih =>
    simp only [List.filter_cons]
    by_cases h1 : head.1 = p
    · have h2 : ¬ head.1 = q := fun h => hq (h.symm.trans h1)
      simp only [bne_iff_ne, ne_eq, h1, not_true_eq_false, if_false, List.find?_cons]
      have h3 : (p == q) = false := by simpa using fun h => hq h.symm
      rw [h3]
      exact ih
    · have h3 : (head.1 != p) = true := by simpa using h1
      simp only [h3, if_true, List.find?_cons, ih]

/-- Writing a path binds it to the new content and leaves every other path as it was. -/
theorem readFile_writeFile (w : World) (p : String) (content : Bytes) :
    (w.writeFile p content).readFile p = some content
      ∧ ∀ q, q ≠ p → (w.writeFile p content).readFile q = w.readFile q := by
  constructor
  · simp [World.readFile, World.writeFile]
  · intro q hq
    have hpq : ¬ p = q := fun h => hq h.symm
    have h3 : (p == q) = false := by simpa using hpq
    simp only [World.readFile, World.writeFile, List.find?_cons, h3]
    rw [find_filter_ne w.files p q hq]

/-- A successful save leaves at the destination the bytes from the read
position of the upload to its end, and leaves every other path as it was. -/
theorem saveUploadedFile_ok (env : Env) (file : UploadedFile) (dstPath : String)
    (w w1 : World) (h : saveUploadedFile env file dstPath w = (w1, none)) :
    w1.readFile dstPath = some (file.data.drop file.pos)
      ∧ ∀ q, q ≠ dstPath → w1.readFile q = w.readFile q := by
  unfold saveUploadedFile at h
  cases hc : env.osCreate dstPath with
  | error e => simp [hc] at h
  | ok u =>
    cases hr : file.readError with
    | some e => simp [hc, hr] at h
    | none =>
      cases hf : env.writeFault dstPath with
      | some fault => simp [hc, hr, hf] at h
      | none =>
        simp [hc, hr, hf] at h
        subst h
        constructor
        · exact (readFile_writeFile _ _ _).1
        · intro q hq
          rw [(readFile_writeFile _ _ _).2 q hq, (readFile_writeFile _ _ _).2 q hq]

/-- Saving an upload touches neither the records nor the directories. -/
theorem saveUploadedFile_records_dirs (env : Env) (file : UploadedFile) (dstPath : String)
    (w : World) :
    (saveUploadedFile env file dstPath w).1.records = w.records
      ∧ (saveUploadedFile env file dstPath w).1.dirs = w.dirs := by
  unfold saveUploadedFile
  cases env.osCreate dstPath with
  | error e => simp
  | ok u =>
    cases file.readError with
    | some e => simp [World.writeFile]
    | none =>
      cases env.writeFault dstPath with
      | none => simp [World.writeFile]
      | some fault => simp [World.writeFile]

/-- Every submission answered with a JSON response went through every step of
the handler: what each step produced is recovered from the answer. -/
theorem createScenario_json_inv (env : Env) (req : Request) (w w1 : World)
    (status : Nat) (answer : GoMap)
    (h : createScenario env req w = (w1, .json status answer)) :
    ∃ (authRecord : AuthRecord) (infoFile0 infoFile scriptFile : UploadedFile)
      (infoData : Bytes) (body : GoMap) (doc : InfoToml) (time : Float64) (w2 w3 : World),
      req.headerGet "Authorization" ≠ ""
        ∧ env.findAuthRecordByToken (req.headerGet "Authorization") = .ok authRecord
        ∧ req.formFile "info.toml" = some infoFile0
        ∧ req.formFile "script.lua" = some scriptFile
        ∧ req.requestInfo = .ok body
        ∧ ioReadAll infoFile0 = (.ok infoData, infoFile)
        ∧ tomlDecode env infoData InfoToml.zeroValue = .ok doc
        ∧ body.get "name" = .str doc.Name
        ∧ body.get "author" = .str doc.Author
        ∧ Float64.eq doc.Time time = true
        ∧ w2.files = w.files
        ∧ saveUploadedFile env infoFile (pathJoin (bundleDir env.newUUID) "info.toml") w2
            = (w3, none)
        ∧ saveUploadedFile env scriptFile (pathJoin (bundleDir env.newUUID) "script.lua") w3
            = (w1, none)
        ∧ status = 200 ∧ answer = createdBody env.newUUID := by
  unfold createScenario at h
  dsimp only at h
  repeat' (split at h <;> try (simp at h; done))
  rename_i hHeader _ authRecord hAuth _ _ _ _ infoFile0 hInfo _ scriptFile hScript _ body hBody
    _ infoData infoFile hRead _ doc hDoc _ timeText hTimeText _ time hTime hCheck _ name hName
    _ author hAuthor _ hSave _ hMkdir _ w3 hSaveInfo _ w4 hSaveScript
  simp only [Prod.mk.injEq, Outcome.json.injEq] at h
  obtain ⟨hw, hst, hans⟩ := h
  subst hw
  simp only [Bool.or_eq_true, Bool.not_eq_true', not_or, Bool.not_eq_false,
    eqString_eq_true_iff] at hCheck
  obtain ⟨⟨hN, hA⟩, hT⟩ := hCheck
  exact ⟨authRecord, infoFile0, infoFile, scriptFile, infoData, body, doc, time,
    World.mk (w.records ++ [Record.mk "" name author time env.newUUID env.nowDateTime
      authRecord.Id]) (bundleDir env.newUUID :: w.dirs) w.files, w3,
    by simpa using hHeader, hAuth, hInfo, hScript, hBody, hRead, hDoc, hN, hA, hT, rfl,
    hSaveInfo, hSaveScript, hst.symm, hans.symm⟩

/-- Every successful submission stores an empty `info.toml`, whatever was
uploaded, and stores `script.lua` with exactly the uploaded bytes. -/
theorem createScenario_success_files (env : Env) (req : Request) (w w1 : World)
    (status : Nat) (answer : GoMap)
    (h : createScenario env req w = (w1, .json status answer)) :
    ∃ info script, req.formFile "info.toml" = some info
      ∧ req.formFile "script.lua" = some script
      ∧ w1.readFile (pathJoin (bundleDir env.newUUID) "info.toml") = some []
      ∧ w1.readFile (pathJoin (bundleDir env.newUUID) "script.lua") = some script.data := by
  obtain ⟨authRecord, infoFile0, infoFile, scriptFile, infoData, body, doc, time, w2, w3,
    -, -, hInfo, hScript, -, hRead, -, -, -, -, -, hSaveInfo, hSaveScript, -, -⟩ :=
    createScenario_json_inv env req w w1 status answer h
  refine ⟨infoFile0, scriptFile, hInfo, hScript, ?_, ?_⟩
  · have hne : pathJoin (bundleDir env.newUUID) "info.toml"
        ≠ pathJoin (bundleDir env.newUUID) "script.lua" := by
      intro hEq
      have := pathJoin_right_inj _ _ _ hEq
      exact absurd this (by decide)
    rw [(saveUploadedFile_ok _ _ _ _ _ hSaveScript).2 _ hne,
      (saveUploadedFile_ok _ _ _ _ _ hSaveInfo).1]
    unfold ioReadAll at hRead
    cases hr : infoFile0.readError with
    | some e => simp [hr] at hRead
    | none =>
      simp [hr] at hRead
      rw [← hRead.2]
      simp
  · have hPos : scriptFile.pos = 0 := by
      unfold Request.formFile at hScript
      split at hScript
      · cases hScript
        rfl
      · cases hScript
    rw [(saveUploadedFile_ok _ _ _ _ _ hSaveScript).1, hPos]
    rfl

/-- C1, evaluated on the complete sample submission: the submission succeeds,
the upload `info.toml` is not empty, and yet the stored `info.toml` is the empty
file (the copy starts at the read position `io.ReadAll` left at the end); the
stored `script.lua` has the uploaded bytes. -/
theorem createScenario_stores_empty_info_toml :
    (createScenario sampleEnv alphaRequest emptyWorld).2
        = .json 200 (createdBody "33333333-3333-4333-8333-333333333333")
      ∧ alphaRequest.formFile "info.toml" = some ⟨alphaToml, 0, none⟩
      ∧ alphaToml ≠ []
      ∧ (createScenario sampleEnv alphaRequest emptyWorld).1.readFile
          "pb_public/scenarios/33333333-3333-4333-8333-333333333333/info.toml" = some []
      ∧ (createScenario sampleEnv alphaRequest emptyWorld).1.readFile
          "pb_public/scenarios/33333333-3333-4333-8333-333333333333/script.lua"
          = some alphaScript := by
  decide

/-! ## Metadata mismatch (C2) -/

/-- C2: an authenticated submission with both files, a decodable `info.toml`
and a form `time` that parses, in which the decoded name, author or time differs
from the form field, ends with the metadata-mismatch error and leaves the record
store and the file store as they were. -/
theorem createScenario_metadata_mismatch (env : Env) (req : Request) (w : World)
    (authRecord : AuthRecord) (collection : Collection) (infoBytes : Bytes)
    (scriptFile : UploadedFile) (body : GoMap) (doc : InfoToml) (timeText : String)
    (time : Float64)
    (hHeader : req.headerGet "Authorization" ≠ "")
    (hAuth : env.findAuthRecordByToken (req.headerGet "Authorization") = .ok authRecord)
    (hCollection : env.findCollectionByNameOrId "scenarioMetadata" = .ok collection)
    (hInfo : req.formFile "info.toml" = some ⟨infoBytes, 0, none⟩)
    (hScript : req.formFile "script.lua" = some scriptFile)
    (hBody : req.requestInfo = .ok body)
    (hDoc : tomlDecode env infoBytes InfoToml.zeroValue = .ok doc)
    (hTimeText : body.get "time" = .str timeText)
    (hTime : env.parseFloat timeText = .ok time)
    (hDiffer : body.get "name" ≠ .str doc.Name ∨ body.get "author" ≠ .str doc.Author
      ∨ Float64.eq doc.Time time = false) :
    createScenario env req w
      = (w, .fail (.http 500 "Supplied metadata and metadata in info.toml do not match")) := by
  have hCheck : (!(body.get "name").eqString doc.Name
      || !(body.get "author").eqString doc.Author
      || !(Float64.eq doc.Time time)) = true := by
    rcases hDiffer with h | h | h
    · have : (body.get "name").eqString doc.Name = false := by
        cases hn : body.get "name" <;> simp_all [GoAny.eqString]
      simp [this]
    · have : (body.get "author").eqString doc.Author = false := by
        cases hn : body.get "author" <;> simp_all [GoAny.eqString]
      simp [this]
    · simp [h]
  simp only [createScenario, hAuth, hCollection, hInfo, hScript, hBody, ioReadAll_fresh, hDoc,
    hTimeText, GoAny.assertString, hTime, hCheck]
  simp [hHeader]

/-- C2 at the sample submission whose form says `time = 2` against `time = 1.5`
in `info.toml`, on a store that already holds two records. -/
theorem createScenario_metadata_mismatch_witness :
    createScenario sampleEnv mismatchRequest sampleWorld
      = (sampleWorld,
         .fail (.http 500 "Supplied metadata and metadata in info.toml do not match")) :=
  createScenario_metadata_mismatch sampleEnv mismatchRequest sampleWorld ⟨"u1"⟩
    ⟨"scenarioMetadata"⟩ alphaToml ⟨alphaScript, 0, none⟩
    [("name", .str "Alpha"), ("author", .str "A"), ("time", .str "2")]
    ⟨"Alpha", "A", oneAndHalf⟩ "2" two
    (by decide) (by decide) (by decide) (by decide) (by decide) (by decide) (by decide)
    (by decide) (by decide) (Or.inr (Or.inr (by decide)))

/-! ## Missing files (C3) -/

/-- C3 as stated fails: a submission whose `script.lua` is present with zero
bytes is not rejected; it is answered with status 200 and its record is saved. -/
theorem createScenario_empty_script_accepted :
    emptyScriptRequest.formFile "script.lua" = some ⟨[], 0, none⟩
      ∧ (createScenario sampleEnv emptyScriptRequest emptyWorld).2
          = .json 200 (createdBody "33333333-3333-4333-8333-333333333333")
      ∧ ((createScenario sampleEnv emptyScriptRequest emptyWorld).1.records.map Record.name)
          = ["Alpha"] := by
  decide

/-- C3, amended: for an authenticated submission for which `FormFile` gives no
`info.toml` or no `script.lua`, the handler fails with a 400 error naming the
file (`info.toml` when both are missing) and changes nothing in the stores. -/
theorem createScenario_missing_file (env : Env) (req : Request) (w : World)
    (authRecord : AuthRecord) (collection : Collection)
    (hHeader : req.headerGet "Authorization" ≠ "")
    (hAuth : env.findAuthRecordByToken (req.headerGet "Authorization") = .ok authRecord)
    (hCollection : env.findCollectionByNameOrId "scenarioMetadata" = .ok collection)
    (hMissing : req.formFile "info.toml" = none ∨ req.formFile "script.lua" = none) :
    createScenario env req w
      = (w, .fail (.http 400
          (if (req.formFile "info.toml").isNone then "Missing info.toml"
           else "Missing script.lua"))) := by
  cases hInfo : req.formFile "info.toml" with
  | none =>
    simp only [createScenario, hAuth, hCollection, hInfo]
    simp [hHeader]
  | some infoFile =>
    have hScript : req.formFile "script.lua" = none := by
      rcases hMissing with h | h
      · rw [hInfo] at h; cases h
      · exact h
    simp only [createScenario, hAuth, hCollection, hInfo, hScript]
    simp [hHeader]

/-- C3, amended, at the sample submission that has no `info.toml`. -/
theorem createScenario_missing_file_witness :
    createScenario sampleEnv noInfoRequest sampleWorld
      = (sampleWorld, .fail (.http 400
          (if (noInfoRequest.formFile "info.toml").isNone then "Missing info.toml"
           else "Missing script.lua"))) :=
  createScenario_missing_file sampleEnv noInfoRequest sampleWorld ⟨"u1"⟩ ⟨"scenarioMetadata"⟩
    (by decide) (by decide) (by decide) (Or.inl (by decide))

/-! ## Absent keys and wrong types in `info.toml` (C4) -/

/-- A request without the header `Authorization` is answered with the 401 error,
whatever its files and form fields, and nothing is persisted. -/
theorem createScenario_absent_header (env : Env) (req : Request) (w : World)
    (h : req.headerGet "Authorization" = "") :
    createScenario env req w = (w, .fail (.http 401 "Missing Authorization header")) := by
  simp [createScenario, h]

/-- A request whose token is not resolved ends with the identity collaborator's
error, returned unchanged, whatever its files and form fields, and nothing is
persisted. -/
theorem createScenario_unresolved_token (env : Env) (req : Request) (w : World) (e : GoError)
    (hHeader : req.headerGet "Authorization" ≠ "")
    (hAuth : env.findAuthRecordByToken (req.headerGet "Authorization") = .error e) :
    createScenario env req w = (w, .fail (.raw e)) := by
  simp only [createScenario, hAuth]
  simp [hHeader]

/-- C5, evaluated on a complete submission whose token is not resolved: the
handler hands on the identity collaborator's error as it is; the error is not one
the handler built with status 401. Nothing is persisted. -/
theorem createScenario_unresolved_token_not_401 :
    staleTokenRequest.headerGet "Authorization" = "token-old"
      ∧ sampleEnv.findAuthRecordByToken "token-old" = .error ⟨"token is invalid"⟩
      ∧ createScenario sampleEnv staleTokenRequest sampleWorld
          = (sampleWorld, .fail (.raw ⟨"token is invalid"⟩))
      ∧ (createScenario sampleEnv staleTokenRequest sampleWorld).2.isHttpError 401 = false := by
  decide

/-! ## Duplicate names (C6) -/

/-- The unfiltered listing is requested exactly when `query` is the empty string. -/
theorem findScenariosCall_empty_query (body : GoMap) (h : body.get "query" = .str "") :
    findScenariosCall body
      = { collection := "scenarioMetadata", filter := "", sort := "-created",
          limit := 50, offset := 0, params := [] } := by
  simp [findScenariosCall, h, GoAny.eqString]

/-- Every other value of `query`, the `nil` of an absent field included, gets
the name-pattern filter with that value as parameter. -/
theorem findScenariosCall_other_query (body : GoMap) (h : body.get "query" ≠ .str "") :
    findScenariosCall body
      = { collection := "scenarioMetadata", filter := "name ~ \x7b:query\x7d",
          sort := "-created", limit := 50, offset := 0,
          params := [[("query", body.get "query")]] } := by
  have hq : (body.get "query").eqString "" = false := by
    cases hv : (body.get "query").eqString ""
    · rfl
    · exact absurd ((eqString_eq_true_iff _ _).mp hv) h
  simp [findScenariosCall, hq]

/-- C7, evaluated on a request whose body has no `query`: the handler issues
the name-pattern filter with the parameter `query` bound to `nil`, not the
unfiltered listing. -/
theorem findScenarios_absent_query_filtered :
    noQueryRequest.requestInfo = .ok []
      ∧ (findScenarios sampleEnv noQueryRequest).1
          = [{ collection := "scenarioMetadata", filter := "name ~ \x7b:query\x7d",
               sort := "-created", limit := 50, offset := 0,
               params := [[("query", .nil)]] }] := by
  decide

/-! ## The search response (C8) -/

/-- C8: whatever list of records the store returns, the handler answers with
status 200 and a list of the same length (so of at most 50 items when the store
returns at most 50 records) whose i-th item is built from the i-th record: its
keys are exactly `name`, `author`, `time`, `uuid`, each with the record's value,
and it has no `createdBy`, `created` or `id`. -/
theorem findScenarios_projection (env : Env) (req : Request) (body : GoMap)
    (records : List Record)
    (hBody : req.requestInfo = .ok body)
    (hRecords : env.findRecordsByFilter (findScenariosCall body) = .ok records) :
    ∃ items : List GoMap, (findScenarios env req).2 = .json 200 items
      ∧ items.length = records.length
      ∧ (records.length ≤ 50 → items.length ≤ 50)
      ∧ ∀ (i : Nat) (r : Record), records[i]? = some r →
          ∃ item : GoMap, items[i]? = some item
            ∧ item.map Prod.fst = ["name", "author", "time", "uuid"]
            ∧ item.get "name" = .str r.name
            ∧ item.get "author" = .str r.author
            ∧ item.get "time" = .float r.time
            ∧ item.get "uuid" = .str r.uuid
            ∧ item.get "createdBy" = .nil
            ∧ item.get "created" = .nil
            ∧ item.get "id" = .nil := by
  refine ⟨records.map summary, ?_, ?_, ?_, ?_⟩
  · simp [findScenarios, hBody, hRecords]
  · simp
  · intro h
    simpa using h
  · intro i r hr
    refine ⟨summary r, ?_, ?_⟩
    · simp [List.getElem?_map, hr]
    · simp [summary, GoMap.get, List.find?]

/-- C8 at the sample search, where the store returns its two records. -/
theorem findScenarios_projection_witness :
    ∃ items : List GoMap, (findScenarios sampleEnv (queryRequest "a")).2 = .json 200 items
      ∧ items.length = 2
      ∧ (2 ≤ 50 → items.length ≤ 50)
      ∧ ∀ (i : Nat) (r : Record), [storedBeta, storedAlpha][i]? = some r →
          ∃ item : GoMap, items[i]? = some item
            ∧ item.map Prod.fst = ["name", "author", "time", "uuid"]
            ∧ item.get "name" = .str r.name
            ∧ item.get "author" = .str r.author
            ∧ item.get "time" = .float r.time
            ∧ item.get "uuid" = .str r.uuid
            ∧ item.get "createdBy" = .nil
            ∧ item.get "created" = .nil
            ∧ item.get "id" = .nil :=
  findScenarios_projection sampleEnv (queryRequest "a") [("query", .str "a")]
    [storedBeta, storedAlpha] (by decide) (by decide)

/-! ## The saved record (C9) -/

/-- C9: in a submission that passes every check before the record is built, the
record handed to the store (the handler's result depends on what `Save` answers
for it, and it is the record appended to the store when `Save` accepts it) has
the name and author of the decoded `info.toml`, a time equal under `==` to the
decoded time (the same bits unless both are zeros), `createdBy` the id of the
resolved user, and as `uuid` the generated id, which is also the name of the
bundle directory and the `id` of the response. -/
theorem createScenario_saved_record (env : Env) (req : Request) (w : World)
    (authRecord : AuthRecord) (collection : Collection) (infoBytes : Bytes)
    (scriptFile : UploadedFile) (body : GoMap) (doc : InfoToml) (timeText : String)
    (time : Float64)
    (hHeader : req.headerGet "Authorization" ≠ "")
    (hAuth : env.findAuthRecordByToken (req.headerGet "Authorization") = .ok authRecord)
    (hCollection : env.findCollectionByNameOrId "scenarioMetadata" = .ok collection)
    (hInfo : req.formFile "info.toml" = some ⟨infoBytes, 0, none⟩)
    (hScript : req.formFile "script.lua" = some scriptFile)
    (hBody : req.requestInfo = .ok body)
    (hDoc : tomlDecode env infoBytes InfoToml.zeroValue = .ok doc)
    (hTimeText : body.get "time" = .str timeText)
    (hTime : env.parseFloat timeText = .ok time)
    (hName : (body.get "name").eqString doc.Name = true)
    (hAuthor : (body.get "author").eqString doc.Author = true)
    (hTimeEq : Float64.eq doc.Time time = true) :
    ∃ r : Record,
      r.name = doc.Name ∧ r.author = doc.Author ∧ Float64.eq doc.Time r.time = true
        ∧ (doc.Time.isZero = false → r.time.bits % 2 ^ 64 = doc.Time.bits % 2 ^ 64)
        ∧ r.createdBy = authRecord.Id ∧ r.uuid = env.newUUID
        ∧ (∀ e, env.save w.records r = .error e →
            createScenario env req w = (w, .fail (.raw e)))
        ∧ (env.save w.records r = .ok () →
            (createScenario env req w).1.records = w.records ++ [r]
              ∧ (∀ e, env.mkdirAll (bundleDir r.uuid) = .error e →
                  createScenario env req w
                    = ({ w with records := w.records ++ [r] },
                       .fail (.http 500 "Failed to create directory")))
              ∧ (env.mkdirAll (bundleDir r.uuid) = .ok () →
                  (createScenario env req w).1.dirs = bundleDir r.uuid :: w.dirs)
              ∧ (∀ status answer, (createScenario env req w).2 = .json status answer →
                  answer.get "id" = .str r.uuid)) := by
  have hN := (eqString_eq_true_iff _ _).mp hName
  have hA := (eqString_eq_true_iff _ _).mp hAuthor
  refine ⟨{ id := "", name := doc.Name, author := doc.Author, time := time,
            uuid := env.newUUID, created := env.nowDateTime, createdBy := authRecord.Id },
    rfl, rfl, hTimeEq, ?_, rfl, rfl, ?_, ?_⟩
  · intro hZero
    have hEq := hTimeEq
    simp only [Float64.eq, hZero, Bool.false_and, Bool.or_false, Bool.and_eq_true,
      beq_iff_eq] at hEq
    exact hEq.2.symm
  · intro e he
    simp only [createScenario, hAuth, hCollection, hInfo, hScript, hBody, ioReadAll_fresh, hDoc,
      hTimeText, GoAny.assertString, hTime, hN, hA, GoAny.eqString, hTimeEq, he]
    simp [hHeader]
  · intro hs
    simp only [createScenario, hAuth, hCollection, hInfo, hScript, hBody, ioReadAll_fresh,
      hDoc, hTimeText, GoAny.assertString, hTime, hN, hA, GoAny.eqString, hTimeEq, hs]
    simp only [beq_iff_eq, hHeader, if_false, beq_self_eq_true, Bool.not_true, Bool.or_self,
      Bool.false_eq_true, ↓reduceIte, bundleDir]
    cases hm : env.mkdirAll (pathJoin (pathJoin "pb_public" "scenarios") env.newUUID) with
    | error e0 => simp
    | ok u =>
      dsimp only
      have h3 := saveUploadedFile_records_dirs env ⟨infoBytes, infoBytes.length, none⟩
        (pathJoin (pathJoin (pathJoin "pb_public" "scenarios") env.newUUID) "info.toml")
        (World.mk (w.records ++ [Record.mk "" doc.Name doc.Author time env.newUUID env.nowDateTime
            authRecord.Id])
          (pathJoin (pathJoin "pb_public" "scenarios") env.newUUID :: w.dirs) w.files)
      generalize saveUploadedFile env ⟨infoBytes, infoBytes.length, none⟩
        (pathJoin (pathJoin (pathJoin "pb_public" "scenarios") env.newUUID) "info.toml")
        (World.mk (w.records ++ [Record.mk "" doc.Name doc.Author time env.newUUID env.nowDateTime
            authRecord.Id])
          (pathJoin (pathJoin "pb_public" "scenarios") env.newUUID :: w.dirs) w.files) = res3
        at h3 ⊢
      obtain ⟨w3, err3⟩ := res3
      simp only at h3
      cases err3 with
      | some e3 => simp [h3]
      | none =>
        dsimp only
        have h4 := saveUploadedFile_records_dirs env scriptFile
          (pathJoin (pathJoin (pathJoin "pb_public" "scenarios") env.newUUID) "script.lua") w3
        generalize saveUploadedFile env scriptFile
          (pathJoin (pathJoin (pathJoin "pb_public" "scenarios") env.newUUID) "script.lua") w3
          = res4 at h4 ⊢
        obtain ⟨w4, err4⟩ := res4
        simp only at h4
        cases err4 with
        | some e4 => simp [h3, h4]
        | none =>
          simp only [h3, h4, true_and, Outcome.json.injEq, and_imp, reduceCtorEq, false_implies,
            implies_true]
          intro status answer _ hAnswer
          subst hAnswer
          simp [createdBody, GoMap.get, List.find?]

/-- C9 at the complete sample submission on the empty store. -/
theorem createScenario_saved_record_witness :
    ∃ r : Record,
      r.name = "Alpha" ∧ r.author = "A" ∧ Float64.eq oneAndHalf r.time = true
        ∧ (oneAndHalf.isZero = false → r.time.bits % 2 ^ 64 = oneAndHalf.bits % 2 ^ 64)
        ∧ r.createdBy = "u1" ∧ r.uuid = sampleEnv.newUUID
        ∧ (∀ e, sampleEnv.save emptyWorld.records r = .error e →
            createScenario sampleEnv alphaRequest emptyWorld = (emptyWorld, .fail (.raw e)))
        ∧ (sampleEnv.save emptyWorld.records r = .ok () →
            (createScenario sampleEnv alphaRequest emptyWorld).1.records
                = emptyWorld.records ++ [r]
              ∧ (∀ e, sampleEnv.mkdirAll (bundleDir r.uuid) = .error e →
                  createScenario sampleEnv alphaRequest emptyWorld
                    = ({ emptyWorld with records := emptyWorld.records ++ [r] },
                       .fail (.http 500 "Failed to create directory")))
              ∧ (sampleEnv.mkdirAll (bundleDir r.uuid) = .ok () →
                  (createScenario sampleEnv alphaRequest emptyWorld).1.dirs
                    = bundleDir r.uuid :: emptyWorld.dirs)
              ∧ (∀ status answer,
                  (createScenario sampleEnv alphaRequest emptyWorld).2 = .json status answer →
                  answer.get "id" = .str r.uuid)) :=
  createScenario_saved_record sampleEnv alphaRequest emptyWorld ⟨"u1"⟩ ⟨"scenarioMetadata"⟩
    alphaToml ⟨alphaScript, 0, none⟩ alphaForm ⟨"Alpha", "A", oneAndHalf⟩ "1.5" oneAndHalf
    (by decide) (by decide) (by decide) (by decide) (by decide) (by decide) (by decide)
    (by decide) (by decide) (by decide) (by decide) (by decide)

/-! ## Type assertions on the form (C10) -/

/-- The only type assertion of the handler that can panic is the one on the form
field `time`: whenever the handler panics, `time` is not a string in the form. -/
theorem createScenario_panic_only_on_time (env : Env) (req : Request) (w w1 : World)
    (reason : String) (h : createScenario env req w = (w1, .panic reason)) :
    ∃ body, req.requestInfo = .ok body ∧ (body.get "time").assertString = none := by
  unfold createScenario at h
  dsimp only at h
  repeat' (split at h <;> try (simp at h; done))
  · rename_i body hBody _ _ _ _ _ _ _ _ hTimeText
    exact ⟨body, hBody, hTimeText⟩
  · rename_i hCheck _ hName
    simp only [Bool.or_eq_true, Bool.not_eq_true', not_or, Bool.not_eq_false,
      eqString_eq_true_iff] at hCheck
    rw [hCheck.1.1] at hName
    simp [GoAny.assertString] at hName
  · rename_i hCheck _ _ _ _ hAuthor
    simp only [Bool.or_eq_true, Bool.not_eq_true', not_or, Bool.not_eq_false,
      eqString_eq_true_iff] at hCheck
    rw [hCheck.1.2] at hAuthor
    simp [GoAny.assertString] at hAuthor

/-- C10, evaluated on a complete submission whose form has no field `time`: the
type assertion `info.Body["time"].(string)` panics. -/
theorem createScenario_absent_time_panics :
    createScenario sampleEnv noTimeFieldRequest sampleWorld
      = (sampleWorld, .panic "interface conversion: interface \x7b\x7d is not string") := by
  decide

end Scenarios
